import Mathlib

/-!
Shallow embedding of the `informal` crate (src/lib.rs): an interactive
command-line input helper built around a read-parse-validate loop.

The embedding models:
  * the `Input<T>` builder struct and its fluent configuration methods;
  * the prompt rendering performed at the start of `try_get_with`;
  * one iteration of the resolution loop (`stepLine`) and the loop itself
    (`runLoop`), driven by a finite script of line-source responses, with a
    trace of observable events (line-source invocations and printed lines);
  * the panicking wrappers `get` and `map` (a panic from `unwrap` is modelled
    as the `panicked` outcome), and the `confirm` / `confirm_with_message`
    shortcut functions;
  * the production line source `read_line` over a finite stdin script, using
    the documented behaviour of `io::Stdin::read_line` at end of input
    (returns `Ok(0)` leaving the buffer empty, hence `Ok("")`).

Strings are modelled with Lean `String`; Rust `str::trim` is modelled by
`strTrim` (drop ASCII whitespace from both ends) and `str::to_lowercase` by
`lowerStr` (character-wise lowercasing); both coincide with the Rust
behaviour on ASCII input. `FromStr` parsing is abstracted as a function
`String → Except String T` (the error string standing for the `Display`
rendering of the parse error), and `io::Error` as a string.
-/

namespace Informal

/-- Model of `io::Error`: identified by its message. -/
abbrev IOErr := String

/-- Observable events of one resolution: each invocation of the line source
(which writes the given prompt, when present, before reading) and each line
printed with `println!`. -/
inductive Event where
  | read (p : Option String)
  | print (msg : String)
  deriving DecidableEq, Repr

/-- Rust `char::is_whitespace`, restricted to the ASCII whitespace characters
(the only ones exercised here). -/
def isWs (c : Char) : Bool := c.isWhitespace

/-- Drop whitespace from both ends of a character list (Rust `str::trim`). -/
def trimChars (l : List Char) : List Char :=
  ((l.dropWhile isWs).reverse.dropWhile isWs).reverse

/-- Model of Rust `str::trim`. -/
def strTrim (s : String) : String := ⟨trimChars s.data⟩

/-- Model of Rust `str::to_lowercase` (character-wise; exact on ASCII). -/
def lowerStr (s : String) : String := ⟨s.data.map Char.toLower⟩

/-- The `Input<T>` builder struct (src/lib.rs lines 83-91).  The `validator`
field inlines the `Validator<T>` wrapper (a boxed `Fn(&T) -> bool`) as a
plain function.  The source field `prefix` is here named `pre`. -/
structure Input (T : Type) where
  prompt : Option String
  pre : Option String
  suffix : Option String
  default : Option T
  validator : Option (T → Bool)
  type_message : Option String
  validator_message : Option String

/-- `Input::new` (src/lib.rs lines 136-146): both error messages are
initialised to `Some` of a generic default. -/
def Input.new {T : Type} : Input T :=
  { prompt := none
    pre := none
    suffix := none
    default := none
    validator := none
    type_message := some "Error: invalid input"
    validator_message := some "Error: does not pass validation" }

/-- `impl Default for Input<T>` (src/lib.rs lines 123-130): identical to
`Input::new`. -/
def Input.defaultCtor {T : Type} : Input T := Input.new

/-- `Input::prompt` (src/lib.rs lines 149-152). -/
def Input.setPrompt {T : Type} (i : Input T) (s : String) : Input T :=
  { i with prompt := some s }

/-- `Input::prefix` (src/lib.rs lines 155-158). -/
def Input.setPre {T : Type} (i : Input T) (s : String) : Input T :=
  { i with pre := some s }

/-- `Input::suffix` (src/lib.rs lines 161-164). -/
def Input.setSuffix {T : Type} (i : Input T) (s : String) : Input T :=
  { i with suffix := some s }

/-- `Input::type_error_message` (src/lib.rs lines 167-170). -/
def Input.type_error_message {T : Type} (i : Input T) (s : String) : Input T :=
  { i with type_message := some s }

/-- `Input::validator_error_message` (src/lib.rs lines 173-176). -/
def Input.validator_error_message {T : Type} (i : Input T) (s : String) : Input T :=
  { i with validator_message := some s }

/-- `Input::default` (src/lib.rs lines 182-185). -/
def Input.setDefault {T : Type} (i : Input T) (d : T) : Input T :=
  { i with default := some d }

/-- `Input::matches` (src/lib.rs lines 198-204). -/
def Input.matches {T : Type} (i : Input T) (f : T → Bool) : Input T :=
  { i with validator := some f }

/-- `pub fn input<T>()` (src/lib.rs lines 337-339). -/
def inputCtor {T : Type} : Input T := Input.new

/-- `pub fn prompt<S, T>(text)` (src/lib.rs lines 362-367). -/
def promptCtor {T : Type} (text : String) : Input T := Input.new.setPrompt text

/-- The prompt rendering performed once at the start of `try_get_with`
(src/lib.rs lines 237-247): when `prompt` is set, prefix and suffix are
concatenated around it (missing pieces contribute nothing); when `prompt`
is unset, the whole rendered prompt is `None` (via `Option::map`), so a
configured prefix or suffix is discarded. -/
def renderPrompt {T : Type} (i : Input T) : Option String :=
  i.prompt.map (fun s => (i.pre.getD "") ++ s ++ (i.suffix.getD ""))

/-- Outcome of one iteration of the resolution loop. -/
inductive StepOut (T : Type) where
  | done (v : T)
  | fatal (e : IOErr)
  | retry (printed : Option String)

/-- One iteration of the loop body of `try_get_with` (src/lib.rs lines
249-282) applied to one line-source response `r`:
  * an I/O error is propagated (`read_line(&prompt)?`);
  * an empty trimmed line returns the default when set, else retries
    silently;
  * otherwise the trimmed line is parsed; on success the validator (if any)
    is consulted: rejection prints `validator_message.unwrap_or("")` and
    retries, acceptance (or no validator) terminates with the parsed value;
  * a parse error prints `type_message.unwrap_or(format!("Error: {}", err))`
    and retries. -/
def stepLine {T : Type} (i : Input T) (parse : String → Except String T)
    (r : Except IOErr String) : StepOut T :=
  match r with
  | Except.error e => StepOut.fatal e
  | Except.ok line =>
    let raw := strTrim line
    if raw = "" then
      match i.default with
      | some d => StepOut.done d
      | none => StepOut.retry none
    else
      match parse raw with
      | Except.ok result =>
        match i.validator with
        | some v =>
          if v result then StepOut.done result
          else StepOut.retry (some (i.validator_message.getD ""))
        | none => StepOut.done result
      | Except.error err =>
        StepOut.retry (some (i.type_message.getD ("Error: " ++ err)))

/-- Terminal outcome of a resolution run over a finite response script:
a returned value, a propagated I/O error, or exhaustion of the script
while the source loop would keep iterating. -/
inductive Outcome (T : Type) where
  | ok (v : T)
  | fatal (e : IOErr)
  | diverged
  deriving DecidableEq, Repr

/-- The `loop` of `try_get_with` over a finite script of line-source
responses, with the pre-rendered prompt `p` passed to the source on every
iteration.  Returns the outcome together with the event trace. -/
def runLoop {T : Type} (p : Option String) (i : Input T)
    (parse : String → Except String T) :
    List (Except IOErr String) → Outcome T × List Event
  | [] => (Outcome.diverged, [])
  | r :: rest =>
    match stepLine i parse r with
    | StepOut.done v => (Outcome.ok v, [Event.read p])
    | StepOut.fatal e => (Outcome.fatal e, [Event.read p])
    | StepOut.retry none =>
      let x := runLoop p i parse rest
      (x.1, Event.read p :: x.2)
    | StepOut.retry (some m) =>
      let x := runLoop p i parse rest
      (x.1, Event.read p :: Event.print m :: x.2)

/-- `Input::try_get_with` (src/lib.rs lines 223-283): renders the prompt
once, then runs the read-parse-validate loop against the given source
script. -/
def Input.try_get_with {T : Type} (i : Input T)
    (parse : String → Except String T) (src : List (Except IOErr String)) :
    Outcome T × List Event :=
  runLoop (renderPrompt i) i parse src

/-- Result of the panicking wrappers: `get` calls `try_get().unwrap()`, so a
fatal I/O error becomes a panic (modelled as `panicked`). -/
inductive GetResult (T : Type) where
  | value (v : T)
  | panicked (e : IOErr)
  | diverged
  deriving DecidableEq, Repr

/-- `Input::get` (src/lib.rs lines 300-302): `try_get().unwrap()`, with the
line source injected as a script. -/
def Input.getWith {T : Type} (i : Input T)
    (parse : String → Except String T) (src : List (Except IOErr String)) :
    GetResult T × List Event :=
  match i.try_get_with parse src with
  | (Outcome.ok v, evs) => (GetResult.value v, evs)
  | (Outcome.fatal e, evs) => (GetResult.panicked e, evs)
  | (Outcome.diverged, evs) => (GetResult.diverged, evs)

/-- `Input::map` (src/lib.rs lines 315-320): `map(self.get())` — the
function is applied to the value produced by `get`. -/
def Input.mapWith {T U : Type} (i : Input T) (f : T → U)
    (parse : String → Except String T) (src : List (Except IOErr String)) :
    GetResult U × List Event :=
  match i.getWith parse src with
  | (GetResult.value v, evs) => (GetResult.value (f v), evs)
  | (GetResult.panicked e, evs) => (GetResult.panicked e, evs)
  | (GetResult.diverged, evs) => (GetResult.diverged, evs)

/-- `impl FromStr for String` never fails: the parse used by the confirm
resolvers (target type `String`). -/
def parseString (s : String) : Except String String := Except.ok s

/-- A `FromStr`-style parse for an unsigned integer target type (used for
concrete instances; error message as rendered by Rust's
`ParseIntError`). -/
def parseNat (s : String) : Except String Nat :=
  if s.data ≠ [] && s.data.all Char.isDigit then
    Except.ok (s.data.foldl (fun n c => 10 * n + (c.toNat - 48)) 0)
  else
    Except.error "invalid digit found in string"

/-- The predicate installed by `confirm` and `confirm_with_message`
(src/lib.rs lines 385 and 406):
`matches!(&*s.trim().to_lowercase(), "n" | "no" | "y" | "yes")`. -/
def yesNoPredicate (s : String) : Bool :=
  decide (lowerStr (strTrim s) = "n" ∨ lowerStr (strTrim s) = "no" ∨
          lowerStr (strTrim s) = "y" ∨ lowerStr (strTrim s) = "yes")

/-- The final transform of both confirm resolvers (src/lib.rs lines 386 and
407): `matches!(&*s.to_lowercase(), "y" | "yes")`. -/
def yesMap (s : String) : Bool :=
  decide (lowerStr s = "y" ∨ lowerStr s = "yes")

/-- The spec built by `pub fn confirm` (src/lib.rs lines 381-387) before its
final `map`. -/
def confirmSpec (text : String) : Input String :=
  (((promptCtor text).setSuffix " [y/N] ").setDefault "n").matches yesNoPredicate

/-- `pub fn confirm` (src/lib.rs lines 381-387), with the line source
injected as a script. -/
def confirmWith (text : String) (src : List (Except IOErr String)) :
    GetResult Bool × List Event :=
  (confirmSpec text).mapWith yesMap parseString src

/-- The spec built by `pub fn confirm_with_message` (src/lib.rs lines
401-408) before its final `map`. -/
def confirmMsgSpec (text msg : String) : Input String :=
  ((((promptCtor text).setSuffix " [y/N] ").setDefault "n").validator_error_message
      msg).matches yesNoPredicate

/-- `pub fn confirm_with_message` (src/lib.rs lines 401-408), with the line
source injected as a script. -/
def confirmMsgWith (text msg : String) (src : List (Except IOErr String)) :
    GetResult Bool × List Event :=
  (confirmMsgSpec text msg).mapWith yesMap parseString src

/-- Model of `fn read_line` (src/lib.rs lines 207-216) over a finite stdin
holding `stdin.length` remaining lines, at its `k`-th invocation: while
lines remain the next line is returned; past the end of input
`io::Stdin::read_line` returns `Ok(0)` and appends nothing to the fresh
`String::new()` buffer, so the function returns `Ok("")` — not an I/O
error.  (I/O errors of the underlying stream are modelled elsewhere by
feeding `Except.error` responses to `try_get_with`.) -/
def read_line_prod (stdin : List String) (k : Nat) : Except IOErr String :=
  if h : k < stdin.length then Except.ok stdin[k] else Except.ok ""

/-- The script of the first `n` responses the production line source yields
over the given stdin. -/
def stdinSrc (stdin : List String) (n : Nat) : List (Except IOErr String) :=
  (List.range n).map (read_line_prod stdin)

/-- The resolution operations defined on `Input` in src/lib.rs. -/
inductive ResolveOp where
  | tryGetWith
  | tryGet
  | get
  | map
  deriving DecidableEq, Repr

/-- Whether the operation is declared `pub` in src/lib.rs: `try_get_with`
(line 223) and `try_get` (line 286) are private (`fn`); `get` (line 300)
and `map` (line 315) are `pub fn`. -/
def ResolveOp.isPub : ResolveOp → Bool
  | ResolveOp.tryGetWith => false
  | ResolveOp.tryGet => false
  | ResolveOp.get => true
  | ResolveOp.map => true

/-- Whether the operation surfaces a fatal I/O failure to its caller as a
result value: `try_get_with` and `try_get` return `io::Result<T>`; `get`
calls `.unwrap()` (panics) and `map` goes through `get`. -/
def ResolveOp.isFallible : ResolveOp → Bool
  | ResolveOp.tryGetWith => true
  | ResolveOp.tryGet => true
  | ResolveOp.get => false
  | ResolveOp.map => false

/-- All resolution operations of src/lib.rs. -/
def resolveOps : List ResolveOp :=
  [ResolveOp.tryGetWith, ResolveOp.tryGet, ResolveOp.get, ResolveOp.map]

/-- The specs reachable through the public builder API: the constructors
`Input::new`, `Default::default`, `input()`, `prompt(text)`, closed under
the fluent configuration methods. -/
inductive Reached {T : Type} : Input T → Prop where
  | new : Reached Input.new
  | defaultCtor : Reached Input.defaultCtor
  | inputCtor : Reached inputCtor
  | promptCtor (s : String) : Reached (promptCtor s)
  | setPrompt {i : Input T} (s : String) : Reached i → Reached (i.setPrompt s)
  | setPre {i : Input T} (s : String) : Reached i → Reached (i.setPre s)
  | setSuffix {i : Input T} (s : String) : Reached i → Reached (i.setSuffix s)
  | typeMsg {i : Input T} (s : String) : Reached i → Reached (i.type_error_message s)
  | valMsg {i : Input T} (s : String) : Reached i → Reached (i.validator_error_message s)
  | setDefault {i : Input T} (d : T) : Reached i → Reached (i.setDefault d)
  | matches {i : Input T} (f : T → Bool) : Reached i → Reached (i.matches f)

/-! ### Helper lemmas about trimming -/

theorem dropWhile_dropWhile (p : Char → Bool) (l : List Char) :
    (l.dropWhile p).dropWhile p = l.dropWhile p := by
  induction l with
  | nil => rfl
  | cons a t ih =>
    by_cases h : p a
    · simp [List.dropWhile_cons, h, ih]
    · simp [List.dropWhile_cons, h]

theorem length_dropWhile_le (p : Char → Bool) (l : List Char) :
    (l.dropWhile p).length ≤ l.length := by
  induction l with
  | nil => simp
  | cons a t ih =>
    by_cases h : p a
    · simp only [List.dropWhile_cons, if_pos h]
      exact Nat.le_trans ih (Nat.le_succ _)
    · simp [List.dropWhile_cons, if_neg h]

theorem dropWhile_append_singleton (p : Char → Bool) (a : Char) (ha : p a = false)
    (xs : List Char) : (xs ++ [a]).dropWhile p = xs.dropWhile p ++ [a] := by
  induction xs with
  | nil => simp [List.dropWhile_cons, ha]
  | cons b t ih =>
    by_cases h : p b
    · simp [List.dropWhile_cons, h, ih]
    · simp [List.dropWhile_cons, h]

theorem head_not_of_dropWhile_self (p : Char → Bool) (a : Char) (t : List Char)
    (h : (a :: t).dropWhile p = a :: t) : p a = false := by
  by_cases hp : p a
  · exfalso
    rw [List.dropWhile_cons, if_pos hp] at h
    have hle : (t.dropWhile p).length ≤ t.length := length_dropWhile_le p t
    have := congrArg List.length h
    simp at this
    omega
  · simpa using hp

theorem dropWhile_rev_trim (p : Char → Bool) (l : List Char)
    (hl : l.dropWhile p = l) :
    ((l.reverse.dropWhile p).reverse).dropWhile p = (l.reverse.dropWhile p).reverse := by
  cases l with
  | nil => rfl
  | cons a t =>
    have ha : p a = false := head_not_of_dropWhile_self p a t hl
    have hrev : (a :: t).reverse = t.reverse ++ [a] := by simp
    rw [hrev, dropWhile_append_singleton p a ha t.reverse]
    simp [List.dropWhile_cons, ha]

theorem trimChars_idem (l : List Char) : trimChars (trimChars l) = trimChars l := by
  have h1 : (trimChars l).dropWhile isWs = trimChars l :=
    dropWhile_rev_trim isWs (l.dropWhile isWs) (dropWhile_dropWhile isWs l)
  show (((trimChars l).dropWhile isWs).reverse.dropWhile isWs).reverse = trimChars l
  rw [h1]
  show (((((l.dropWhile isWs).reverse.dropWhile isWs).reverse).reverse).dropWhile isWs).reverse
      = trimChars l
  rw [List.reverse_reverse, dropWhile_dropWhile]
  rfl

theorem strTrim_idem (s : String) : strTrim (strTrim s) = strTrim s := by
  simp [strTrim, trimChars_idem]

/-! ### Helper lemmas about single loop iterations -/

theorem stepLine_empty_default {T : Type} (i : Input T) (parse : String → Except String T)
    (line : String) (d : T) (h : strTrim line = "") (hd : i.default = some d) :
    stepLine i parse (Except.ok line) = StepOut.done d := by
  simp [stepLine, h, hd]

theorem stepLine_empty_no_default {T : Type} (i : Input T) (parse : String → Except String T)
    (line : String) (h : strTrim line = "") (hd : i.default = none) :
    stepLine i parse (Except.ok line) = StepOut.retry none := by
  simp [stepLine, h, hd]

theorem stepLine_parse_error {T : Type} (i : Input T) (parse : String → Except String T)
    (line err : String) (h : strTrim line ≠ "")
    (hp : parse (strTrim line) = Except.error err) :
    stepLine i parse (Except.ok line) =
      StepOut.retry (some (i.type_message.getD ("Error: " ++ err))) := by
  simp [stepLine, h, hp]

theorem stepLine_accept_none {T : Type} (i : Input T) (parse : String → Except String T)
    (line : String) (v : T) (h : strTrim line ≠ "")
    (hp : parse (strTrim line) = Except.ok v) (hv : i.validator = none) :
    stepLine i parse (Except.ok line) = StepOut.done v := by
  simp [stepLine, h, hp, hv]

theorem stepLine_accept_some {T : Type} (i : Input T) (parse : String → Except String T)
    (line : String) (v : T) (f : T → Bool) (h : strTrim line ≠ "")
    (hp : parse (strTrim line) = Except.ok v) (hv : i.validator = some f)
    (hf : f v = true) :
    stepLine i parse (Except.ok line) = StepOut.done v := by
  simp [stepLine, h, hp, hv, hf]

theorem stepLine_reject {T : Type} (i : Input T) (parse : String → Except String T)
    (line : String) (v : T) (f : T → Bool) (h : strTrim line ≠ "")
    (hp : parse (strTrim line) = Except.ok v) (hv : i.validator = some f)
    (hf : f v = false) :
    stepLine i parse (Except.ok line) =
      StepOut.retry (some (i.validator_message.getD "")) := by
  simp [stepLine, h, hp, hv, hf]

/-! ### Helper lemmas about the resolution loop -/

theorem runLoop_done {T : Type} (p : Option String) (i : Input T)
    (parse : String → Except String T) (r : Except IOErr String)
    (rest : List (Except IOErr String)) (v : T)
    (h : stepLine i parse r = StepOut.done v) :
    runLoop p i parse (r :: rest) = (Outcome.ok v, [Event.read p]) := by
  simp [runLoop, h]

theorem runLoop_fatal {T : Type} (p : Option String) (i : Input T)
    (parse : String → Except String T) (r : Except IOErr String)
    (rest : List (Except IOErr String)) (e : IOErr)
    (h : stepLine i parse r = StepOut.fatal e) :
    runLoop p i parse (r :: rest) = (Outcome.fatal e, [Event.read p]) := by
  simp [runLoop, h]

theorem runLoop_retry_none {T : Type} (p : Option String) (i : Input T)
    (parse : String → Except String T) (r : Except IOErr String)
    (rest : List (Except IOErr String))
    (h : stepLine i parse r = StepOut.retry none) :
    runLoop p i parse (r :: rest) =
      ((runLoop p i parse rest).1, Event.read p :: (runLoop p i parse rest).2) := by
  simp [runLoop, h]

theorem runLoop_retry_some {T : Type} (p : Option String) (i : Input T)
    (parse : String → Except String T) (r : Except IOErr String)
    (rest : List (Except IOErr String)) (m : String)
    (h : stepLine i parse r = StepOut.retry (some m)) :
    runLoop p i parse (r :: rest) =
      ((runLoop p i parse rest).1,
        Event.read p :: Event.print m :: (runLoop p i parse rest).2) := by
  simp [runLoop, h]

theorem runLoop_retry_fst {T : Type} (p : Option String) (i : Input T)
    (parse : String → Except String T) (r : Except IOErr String)
    (rest : List (Except IOErr String)) (m : Option String)
    (h : stepLine i parse r = StepOut.retry m) :
    (runLoop p i parse (r :: rest)).1 = (runLoop p i parse rest).1 := by
  cases m with
  | none => rw [runLoop_retry_none p i parse r rest h]
  | some msg => rw [runLoop_retry_some p i parse r rest msg h]

theorem runLoop_retries_prefix {T : Type} (p : Option String) (i : Input T)
    (parse : String → Except String T) (pr rest : List (Except IOErr String))
    (h : ∀ r ∈ pr, ∃ m, stepLine i parse r = StepOut.retry m) :
    (runLoop p i parse (pr ++ rest)).1 = (runLoop p i parse rest).1 := by
  induction pr with
  | nil => rfl
  | cons r t ih =>
    obtain ⟨m, hm⟩ := h r (by simp)
    rw [List.cons_append, runLoop_retry_fst p i parse r (t ++ rest) m hm]
    exact ih (fun r' hr' => h r' (by simp [hr']))

theorem runLoop_read_mem {T : Type} (p : Option String) (i : Input T)
    (parse : String → Except String T) :
    ∀ (src : List (Except IOErr String)) (q : Option String),
      Event.read q ∈ (runLoop p i parse src).2 → q = p := by
  intro src
  induction src with
  | nil => intro q h; simp [runLoop] at h
  | cons r rest ih =>
    intro q h
    cases hs : stepLine i parse r with
    | done v =>
      rw [runLoop_done p i parse r rest v hs] at h
      simp at h
      exact h
    | fatal e =>
      rw [runLoop_fatal p i parse r rest e hs] at h
      simp at h
      exact h
    | retry m =>
      cases m with
      | none =>
        rw [runLoop_retry_none p i parse r rest hs] at h
        simp at h
        rcases h with h | h
        · exact h
        · exact ih q h
      | some msg =>
        rw [runLoop_retry_some p i parse r rest msg hs] at h
        simp at h
        rcases h with h | h
        · exact h
        · exact ih q h

theorem stepLine_done_inv {T : Type} (i : Input T) (parse : String → Except String T)
    (r : Except IOErr String) (v : T) (h : stepLine i parse r = StepOut.done v) :
    i.default = some v ∨
      ∃ s, parse s = Except.ok v ∧ ∀ g, i.validator = some g → g v = true := by
  cases r with
  | error e => simp [stepLine] at h
  | ok line =>
    by_cases hemp : strTrim line = ""
    · cases hd : i.default with
      | none => rw [stepLine_empty_no_default i parse line hemp hd] at h; cases h
      | some d =>
        rw [stepLine_empty_default i parse line d hemp hd] at h
        cases h
        exact Or.inl rfl
    · cases hp : parse (strTrim line) with
      | error err =>
        rw [stepLine_parse_error i parse line err hemp hp] at h; cases h
      | ok w =>
        cases hv : i.validator with
        | none =>
          rw [stepLine_accept_none i parse line w hemp hp hv] at h
          cases h
          exact Or.inr ⟨strTrim line, hp, fun g hg => Option.noConfusion hg⟩
        | some f =>
          by_cases hf : f w = true
          · rw [stepLine_accept_some i parse line w f hemp hp hv hf] at h
            cases h
            exact Or.inr ⟨strTrim line, hp, fun g hg => Option.some.inj hg ▸ hf⟩
          · rw [stepLine_reject i parse line w f hemp hp hv
                (by revert hf; cases f w <;> simp)] at h
            cases h

theorem runLoop_ok_inv {T : Type} (p : Option String) (i : Input T)
    (parse : String → Except String T) :
    ∀ (src : List (Except IOErr String)) (v : T),
      (runLoop p i parse src).1 = Outcome.ok v →
      i.default = some v ∨
        ∃ s, parse s = Except.ok v ∧ ∀ g, i.validator = some g → g v = true := by
  intro src
  induction src with
  | nil => intro v h; simp [runLoop] at h
  | cons r rest ih =>
    intro v h
    cases hs : stepLine i parse r with
    | done w =>
      rw [runLoop_done p i parse r rest w hs] at h
      simp at h
      exact h ▸ stepLine_done_inv i parse r w hs
    | fatal e =>
      rw [runLoop_fatal p i parse r rest e hs] at h
      simp at h
    | retry m =>
      rw [runLoop_retry_fst p i parse r rest m hs] at h
      exact ih v h

/-! ### Helper lemmas about the panicking wrappers -/

theorem mapWith_done {T U : Type} (i : Input T) (f : T → U)
    (parse : String → Except String T) (r : Except IOErr String)
    (rest : List (Except IOErr String)) (v : T)
    (h : stepLine i parse r = StepOut.done v) :
    i.mapWith f parse (r :: rest) =
      (GetResult.value (f v), [Event.read (renderPrompt i)]) := by
  simp [Input.mapWith, Input.getWith, Input.try_get_with,
    runLoop_done (renderPrompt i) i parse r rest v h]

theorem mapWith_retry_some {T U : Type} (i : Input T) (f : T → U)
    (parse : String → Except String T) (r : Except IOErr String)
    (rest : List (Except IOErr String)) (m : String)
    (h : stepLine i parse r = StepOut.retry (some m)) :
    i.mapWith f parse (r :: rest) =
      ((i.mapWith f parse rest).1,
        Event.read (renderPrompt i) :: Event.print m :: (i.mapWith f parse rest).2) := by
  have hr := runLoop_retry_some (renderPrompt i) i parse r rest m h
  rcases h2 : runLoop (renderPrompt i) i parse rest with ⟨o, evs⟩
  rw [h2] at hr
  cases o <;>
    simp [Input.mapWith, Input.getWith, Input.try_get_with, hr, h2]

/-! ### Helper lemmas about the production line source at end of input -/

theorem read_line_prod_eof (stdin : List String) (k : Nat)
    (h : stdin.length ≤ k) : read_line_prod stdin k = Except.ok "" := by
  rw [read_line_prod, dif_neg (by omega)]

theorem read_line_prod_nil (k : Nat) : read_line_prod [] k = Except.ok "" := by
  simp [read_line_prod]

theorem stdinSrc_nil (n : Nat) : stdinSrc [] n = List.replicate n (Except.ok "") := by
  induction n with
  | zero => rfl
  | succ k ih =>
    rw [stdinSrc, List.range_succ, List.map_append]
    rw [stdinSrc] at ih
    rw [ih, List.replicate_succ']
    simp [read_line_prod_nil]

theorem runLoop_eof_no_default {T : Type} (p : Option String) (i : Input T)
    (parse : String → Except String T) (hD : i.default = none) (n : Nat) :
    runLoop p i parse (List.replicate n (Except.ok "")) =
      (Outcome.diverged, List.replicate n (Event.read p)) := by
  induction n with
  | zero => rfl
  | succ k ih =>
    rw [List.replicate_succ, runLoop_retry_none p i parse _ _
        (stepLine_empty_no_default i parse "" rfl hD), ih, List.replicate_succ]

/-- The spec of the specification's scenario: prompt "Enter age: ", integer
target type, predicate `x < 120`. -/
def agePrompt : Input Nat :=
  (promptCtor "Enter age: ").matches (fun x => decide (x < 120))

/-! ### Claims -/

/-- Claim C1 (counterexample): the no-message confirm variant — a spec whose
validator-error message was never configured — does print a message line
when the predicate rejects the parsed value "maybe": the constructor default
"Error: does not pass validation" is written between the two reads, so the
retry is not silent. -/
theorem c1_counterexample :
    confirmWith "Continue?" [Except.ok "maybe", Except.ok "y"] =
      (GetResult.value true,
        [Event.read (some "Continue? [y/N] "),
         Event.print "Error: does not pass validation",
         Event.read (some "Continue? [y/N] ")]) := by decide

/-- Claim C1 (amended): when the predicate rejects a parsed value the
resolver always prints one message line before the next read: the stored
validator-error message (via `unwrap_or("")`, so an empty line would be
printed even if the field were `None`).  For a spec whose message was never
configured the stored message is the constructor default
"Error: does not pass validation". -/
theorem c1_amended {T : Type} (i : Input T) (parse : String → Except String T)
    (line : String) (rest : List (Except IOErr String)) (v : T) (f : T → Bool)
    (hv : i.validator = some f) (hf : f v = false)
    (ht : strTrim line ≠ "") (hp : parse (strTrim line) = Except.ok v) :
    i.try_get_with parse (Except.ok line :: rest) =
      ((i.try_get_with parse rest).1,
        Event.read (renderPrompt i) ::
          Event.print (i.validator_message.getD "") ::
            (i.try_get_with parse rest).2) ∧
    (Input.new (T := T)).validator_message = some "Error: does not pass validation" := by
  constructor
  · exact runLoop_retry_some _ i parse _ rest _
      (stepLine_reject i parse line v f ht hp hv hf)
  · rfl

/-- Closed witness for `c1_amended`: the scenario spec rejects "200". -/
theorem c1_amended_witness :
    agePrompt.try_get_with parseNat [Except.ok "200"] =
      ((agePrompt.try_get_with parseNat []).1,
        Event.read (renderPrompt agePrompt) ::
          Event.print (agePrompt.validator_message.getD "") ::
            (agePrompt.try_get_with parseNat []).2) ∧
    (Input.new (T := Nat)).validator_message = some "Error: does not pass validation" :=
  c1_amended agePrompt parseNat "200" [] 200 (fun x => decide (x < 120)) rfl rfl
    (by decide) rfl

/-- Claim C2: `map` resolves the spec and applies the pure function only to
a successfully produced terminal value; a resolution failure (the fatal I/O
error, which `get` surfaces by panicking, modelled as `panicked`) propagates
unchanged — same error, same trace — and the transform is not run: the
failure result is independent of the universally quantified `f`. -/
theorem c2_map_propagates {T U : Type} (i : Input T) (f : T → U)
    (parse : String → Except String T) (src : List (Except IOErr String)) :
    (∀ e evs, i.try_get_with parse src = (Outcome.fatal e, evs) →
        i.mapWith f parse src = (GetResult.panicked e, evs)) ∧
    (∀ v evs, i.try_get_with parse src = (Outcome.ok v, evs) →
        i.mapWith f parse src = (GetResult.value (f v), evs)) := by
  constructor
  · intro e evs h
    simp [Input.mapWith, Input.getWith, h]
  · intro v evs h
    simp [Input.mapWith, Input.getWith, h]

/-- Closed witness for `c2_map_propagates`: a line-source failure on the
first read propagates through `map` with the transform unused. -/
theorem c2_map_propagates_witness :
    (Input.new (T := Nat)).mapWith (fun n => n + 1) parseNat [Except.error "pipe"] =
      (GetResult.panicked "pipe", [Event.read none]) :=
  (c2_map_propagates Input.new (fun n => n + 1) parseNat [Except.error "pipe"]).1
    "pipe" [Event.read none] rfl

/-- Claim C3 (counterexample): no resolution operation of src/lib.rs is both
public and fallible — so for library consumers the panicking wrapper is the
only way to resolve a spec, contradicting the claim that a fallible variant
is available to them. -/
theorem c3_counterexample :
    resolveOps.all (fun op => !(op.isPub && op.isFallible)) = true := by decide

/-- Claim C3 (amended): fallible resolution variants do exist in the source
(`try_get`, `try_get_with`) but are crate-private; the public resolution
operations are exactly `get` and `map`, and every public one panics on I/O
failure instead of returning it. -/
theorem c3_amended :
    (ResolveOp.tryGet.isFallible && !ResolveOp.tryGet.isPub) = true ∧
    resolveOps.filter ResolveOp.isPub = [ResolveOp.get, ResolveOp.map] ∧
    (resolveOps.filter ResolveOp.isPub).all (fun op => !op.isFallible) = true := by
  refine ⟨rfl, by decide, rfl⟩

/-- Claim C4 (counterexample): with a configured prefix and no prompt text,
nothing is rendered at all — the line source receives `none`, not the
prefix — because `try_get_with` renders through `Option::map` on the prompt
text. -/
theorem c4_counterexample :
    renderPrompt ((Input.new (T := Nat)).setPre ">> ") = none ∧
    ((Input.new (T := Nat)).setPre ">> ").try_get_with parseNat [Except.ok "5"] =
      (Outcome.ok 5, [Event.read none]) :=
  ⟨rfl, by decide⟩

/-- Claim C4 (amended): when prompt_text is set the full prompt is rendered
as prefix ++ prompt_text ++ suffix with a missing prefix or suffix
contributing nothing; when prompt_text is unset nothing is rendered (a
configured prefix or suffix is discarded); and the identical rendered value
is passed to the line source on every iteration of one resolution. -/
theorem c4_amended {T : Type} (i : Input T) (parse : String → Except String T)
    (src : List (Except IOErr String)) :
    (∀ s, i.prompt = some s →
        renderPrompt i = some ((i.pre.getD "") ++ s ++ (i.suffix.getD ""))) ∧
    (i.prompt = none → renderPrompt i = none) ∧
    (∀ q, Event.read q ∈ (i.try_get_with parse src).2 → q = renderPrompt i) := by
  refine ⟨?_, ?_, ?_⟩
  · intro s hs; simp [renderPrompt, hs]
  · intro hs; simp [renderPrompt, hs]
  · intro q hq
    exact runLoop_read_mem (renderPrompt i) i parse src q hq

/-- Closed witness for `c4_amended`: a full render with all three pieces,
and the discarded-prefix case. -/
theorem c4_amended_witness :
    renderPrompt (confirmSpec "Q") = some ("" ++ "Q" ++ " [y/N] ") ∧
    renderPrompt ((Input.new (T := Nat)).setPre ">> ") = none :=
  ⟨(c4_amended (confirmSpec "Q") parseString []).1 "Q" rfl,
   (c4_amended ((Input.new (T := Nat)).setPre ">> ") parseNat []).2.1 rfl⟩

/-- Claim C5: with a default value D configured, as soon as a line trims to
empty the resolution returns D, regardless of how many prior attempts were
retried; and the terminating step consults neither the parse operation nor
the predicate — it yields D for every parse function and every validator. -/
theorem c5_default_bypass {T : Type} (i : Input T)
    (parse : String → Except String T) (D : T)
    (pr rest : List (Except IOErr String)) (line : String)
    (hD : i.default = some D)
    (hpr : ∀ r ∈ pr, ∃ m, stepLine i parse r = StepOut.retry m)
    (hline : strTrim line = "") :
    (i.try_get_with parse (pr ++ Except.ok line :: rest)).1 = Outcome.ok D ∧
    (∀ (parse2 : String → Except String T) (g : Option (T → Bool)),
        stepLine { i with validator := g } parse2 (Except.ok line) = StepOut.done D) := by
  constructor
  · have h1 : (runLoop (renderPrompt i) i parse (pr ++ Except.ok line :: rest)).1
        = (runLoop (renderPrompt i) i parse (Except.ok line :: rest)).1 :=
      runLoop_retries_prefix _ i parse pr _ hpr
    have h2 := runLoop_done (renderPrompt i) i parse (Except.ok line) rest D
      (stepLine_empty_default i parse line D hline hD)
    show (runLoop (renderPrompt i) i parse (pr ++ Except.ok line :: rest)).1 = Outcome.ok D
    rw [h1, h2]
  · intro parse2 g
    exact stepLine_empty_default _ parse2 line D hline hD

/-- Closed witness for `c5_default_bypass`: after one failed parse attempt,
a whitespace-only line returns the default 0 untouched by parse or
predicate. -/
theorem c5_default_bypass_witness :
    ((agePrompt.setDefault 0).try_get_with parseNat
        ([Except.ok "abc"] ++ Except.ok " " :: [])).1 = Outcome.ok 0 :=
  (c5_default_bypass (agePrompt.setDefault 0) parseNat 0
    [Except.ok "abc"] [] " " rfl
    (fun r hr => by
      simp at hr
      subst hr
      exact ⟨some "Error: invalid input", rfl⟩)
    (by decide)).1

/-- Claim C6 (counterexample): the input "NO" — not one of "n", "N", "no",
not a letter case of y/yes and not empty, hence an "other input" per the
claim — is accepted by the case-insensitive predicate and immediately
resolves to `false`, instead of being rejected and re-prompted. -/
theorem c6_counterexample :
    confirmWith "Q" [Except.ok "NO"] =
      (GetResult.value false, [Event.read (some "Q [y/N] ")]) := by decide

/-- Claim C6 (amended): the confirm resolver returns true exactly for inputs
whose trimmed form lowercases to "y" or "yes" (any letter case of y/yes);
it returns false for inputs whose trimmed form lowercases to "n" or "no"
(any letter case of n/no) and for the empty line via the default "n"; every
input whose trimmed form is non-empty and lowercases to none of
n/no/y/yes is rejected by the predicate and re-prompted instead of
returning. -/
theorem c6_amended (text line : String) (rest : List (Except IOErr String)) :
    ((lowerStr (strTrim line) = "y" ∨ lowerStr (strTrim line) = "yes") →
        confirmWith text (Except.ok line :: rest) =
          (GetResult.value true, [Event.read (renderPrompt (confirmSpec text))])) ∧
    ((lowerStr (strTrim line) = "n" ∨ lowerStr (strTrim line) = "no") →
        confirmWith text (Except.ok line :: rest) =
          (GetResult.value false, [Event.read (renderPrompt (confirmSpec text))])) ∧
    (strTrim line = "" →
        confirmWith text (Except.ok line :: rest) =
          (GetResult.value false, [Event.read (renderPrompt (confirmSpec text))])) ∧
    (strTrim line ≠ "" →
        ¬(lowerStr (strTrim line) = "n" ∨ lowerStr (strTrim line) = "no" ∨
            lowerStr (strTrim line) = "y" ∨ lowerStr (strTrim line) = "yes") →
        confirmWith text (Except.ok line :: rest) =
          ((confirmWith text rest).1,
            Event.read (renderPrompt (confirmSpec text)) ::
              Event.print "Error: does not pass validation" ::
                (confirmWith text rest).2)) := by
  refine ⟨?_, ?_, ?_, ?_⟩
  · intro hl
    have hne : strTrim line ≠ "" := by
      intro he
      rw [he] at hl
      rcases hl with h | h <;> exact absurd h (by decide)
    have hacc : yesNoPredicate (strTrim line) = true := by
      unfold yesNoPredicate
      rw [strTrim_idem]
      rcases hl with h | h <;> simp [h]
    have hstep := stepLine_accept_some (confirmSpec text) parseString line
      (strTrim line) yesNoPredicate hne rfl rfl hacc
    have hmap : yesMap (strTrim line) = true := by
      unfold yesMap
      rcases hl with h | h <;> simp [h]
    have := mapWith_done (confirmSpec text) yesMap parseString
      (Except.ok line) rest (strTrim line) hstep
    rw [show confirmWith text (Except.ok line :: rest) =
        (confirmSpec text).mapWith yesMap parseString (Except.ok line :: rest) from rfl,
      this, hmap]
  · intro hl
    have hne : strTrim line ≠ "" := by
      intro he
      rw [he] at hl
      rcases hl with h | h <;> exact absurd h (by decide)
    have hacc : yesNoPredicate (strTrim line) = true := by
      unfold yesNoPredicate
      rw [strTrim_idem]
      rcases hl with h | h <;> simp [h]
    have hstep := stepLine_accept_some (confirmSpec text) parseString line
      (strTrim line) yesNoPredicate hne rfl rfl hacc
    have hmap : yesMap (strTrim line) = false := by
      unfold yesMap
      rcases hl with h | h <;> rw [h] <;> decide
    have := mapWith_done (confirmSpec text) yesMap parseString
      (Except.ok line) rest (strTrim line) hstep
    rw [show confirmWith text (Except.ok line :: rest) =
        (confirmSpec text).mapWith yesMap parseString (Except.ok line :: rest) from rfl,
      this, hmap]
  · intro hl
    have hstep := stepLine_empty_default (confirmSpec text) parseString line "n" hl rfl
    have := mapWith_done (confirmSpec text) yesMap parseString
      (Except.ok line) rest "n" hstep
    rw [show confirmWith text (Except.ok line :: rest) =
        (confirmSpec text).mapWith yesMap parseString (Except.ok line :: rest) from rfl,
      this]
    rfl
  · intro hne hnot
    have hrej : yesNoPredicate (strTrim line) = false := by
      unfold yesNoPredicate
      rw [strTrim_idem]
      exact decide_eq_false hnot
    have hstep := stepLine_reject (confirmSpec text) parseString line
      (strTrim line) yesNoPredicate hne rfl rfl hrej
    exact mapWith_retry_some (confirmSpec text) yesMap parseString
      (Except.ok line) rest "Error: does not pass validation" hstep

/-- Closed witness for `c6_amended`: the input "YES" resolves to true. -/
theorem c6_amended_witness :
    confirmWith "Q" [Except.ok "YES"] =
      (GetResult.value true, [Event.read (renderPrompt (confirmSpec "Q"))]) :=
  (c6_amended "Q" "YES" []).1 (Or.inr (by decide))

/-- Claim C7: a parsed value V with the predicate absent or accepting V
terminates resolution on that iteration, returning V; a rejected V is not
returned on that iteration and the loop continues past the rejected line to
the next read; and resolution can only ever terminate on the configured
default or on a parsed value accepted by any configured predicate — never
on a rejected or unparsable value. -/
theorem c7_termination {T : Type} (i : Input T) (parse : String → Except String T)
    (line : String) (rest src : List (Except IOErr String)) (V : T) :
    ((strTrim line ≠ "" → parse (strTrim line) = Except.ok V →
        (i.validator = none ∨ ∃ f, i.validator = some f ∧ f V = true) →
        i.try_get_with parse (Except.ok line :: rest) =
          (Outcome.ok V, [Event.read (renderPrompt i)]))) ∧
    (∀ f, i.validator = some f → f V = false → strTrim line ≠ "" →
        parse (strTrim line) = Except.ok V →
        (i.try_get_with parse (Except.ok line :: rest)).1 =
          (i.try_get_with parse rest).1) ∧
    ((i.try_get_with parse src).1 = Outcome.ok V →
        i.default = some V ∨
          ∃ s, parse s = Except.ok V ∧ ∀ g, i.validator = some g → g V = true) := by
  refine ⟨?_, ?_, ?_⟩
  · intro ht hp hv
    rcases hv with hv | ⟨f, hv, hf⟩
    · exact runLoop_done _ i parse _ rest V (stepLine_accept_none i parse line V ht hp hv)
    · exact runLoop_done _ i parse _ rest V
        (stepLine_accept_some i parse line V f ht hp hv hf)
  · intro f hv hf ht hp
    exact runLoop_retry_fst _ i parse _ rest _
      (stepLine_reject i parse line V f ht hp hv hf)
  · intro h
    exact runLoop_ok_inv _ i parse src V h

/-- Closed witness for `c7_termination`: "45" passes the `< 120` predicate
and is returned on the spot. -/
theorem c7_termination_witness :
    agePrompt.try_get_with parseNat [Except.ok "45"] =
      (Outcome.ok 45, [Event.read (renderPrompt agePrompt)]) :=
  (c7_termination agePrompt parseNat "45" [] [] 45).1 (by decide) rfl
    (Or.inr ⟨fun x => decide (x < 120), rfl, rfl⟩)

/-- Claim C8: a non-empty trimmed line that fails to parse never terminates
resolution on that attempt; exactly one message line is printed for the
attempt — the configured type-error message when the field is set
(`Input::new` configures the generic "Error: invalid input" by default),
otherwise the fallback built from the parse error — and the loop then reads
again. -/
theorem c8_parse_failure {T : Type} (i : Input T) (parse : String → Except String T)
    (line err : String) (rest : List (Except IOErr String))
    (ht : strTrim line ≠ "") (hp : parse (strTrim line) = Except.error err) :
    i.try_get_with parse (Except.ok line :: rest) =
      ((i.try_get_with parse rest).1,
        Event.read (renderPrompt i) ::
          Event.print (i.type_message.getD ("Error: " ++ err)) ::
            (i.try_get_with parse rest).2) ∧
    (∀ m, i.type_message = some m → i.type_message.getD ("Error: " ++ err) = m) ∧
    (Input.new (T := T)).type_message = some "Error: invalid input" := by
  refine ⟨?_, ?_, rfl⟩
  · exact runLoop_retry_some _ i parse _ rest _
      (stepLine_parse_error i parse line err ht hp)
  · intro m hm; rw [hm]; rfl

/-- Closed witness for `c8_parse_failure`: the unparsable "abc" prints the
configured message once and the loop moves on. -/
theorem c8_parse_failure_witness :
    agePrompt.try_get_with parseNat [Except.ok "abc"] =
      ((agePrompt.try_get_with parseNat []).1,
        Event.read (renderPrompt agePrompt) ::
          Event.print
            (agePrompt.type_message.getD ("Error: " ++ "invalid digit found in string")) ::
            (agePrompt.try_get_with parseNat []).2) :=
  (c8_parse_failure agePrompt parseNat "abc" "invalid digit found in string" []
    (by decide) rfl).1

/-- Claim C9: every spec reachable through the public constructors (`new`,
`Default::default`, `input`, `prompt`) and builder methods keeps both error
messages set — `new` initialises them to Some "Error: invalid input" and
Some "Error: does not pass validation" and no public operation resets either
field to `None` — so the unset-message fallback branches are unreachable
through the public API, and an otherwise-unconfigured spec prints
"Error: does not pass validation" on predicate rejection. -/
theorem c9_messages_never_none {T : Type} (i : Input T) (h : Reached i) :
    i.type_message.isSome = true ∧ i.validator_message.isSome = true ∧
    (Input.new (T := T)).type_message = some "Error: invalid input" ∧
    (Input.new (T := T)).validator_message = some "Error: does not pass validation" ∧
    (∀ (f : T → Bool) (parse : String → Except String T) (line : String) (v : T),
        strTrim line ≠ "" → parse (strTrim line) = Except.ok v → f v = false →
        stepLine ((Input.new (T := T)).matches f) parse (Except.ok line) =
          StepOut.retry (some "Error: does not pass validation")) := by
  have key : i.type_message.isSome = true ∧ i.validator_message.isSome = true := by
    induction h with
    | new => exact ⟨rfl, rfl⟩
    | defaultCtor => exact ⟨rfl, rfl⟩
    | inputCtor => exact ⟨rfl, rfl⟩
    | promptCtor s => exact ⟨rfl, rfl⟩
    | setPrompt s _ ih => exact ih
    | setPre s _ ih => exact ih
    | setSuffix s _ ih => exact ih
    | typeMsg s _ ih => exact ⟨rfl, ih.2⟩
    | valMsg s _ ih => exact ⟨ih.1, rfl⟩
    | setDefault d _ ih => exact ih
    | «matches» f _ ih => exact ih
  refine ⟨key.1, key.2, rfl, rfl, ?_⟩
  intro f parse line v ht hp hf
  exact stepLine_reject ((Input.new (T := T)).matches f) parse line v f ht hp rfl hf

/-- Closed witness for `c9_messages_never_none`, at the empty constructor. -/
theorem c9_messages_never_none_witness :
    (Input.new (T := Nat)).type_message.isSome = true ∧
    (Input.new (T := Nat)).validator_message.isSome = true :=
  ⟨(c9_messages_never_none Input.new Reached.new).1,
   (c9_messages_never_none Input.new Reached.new).2.1⟩

/-- Claim C10: the production line source yields Ok "" — not an I/O error —
once the input is exhausted (closed stdin); hence with a default configured
the default is returned on the first post-EOF read, and with no default the
resolver keeps re-invoking the line source with the same prompt forever,
printing no message and never failing. -/
theorem c10_eof {T : Type} (i : Input T) (parse : String → Except String T)
    (D : T) (n : Nat) :
    (∀ (stdin : List String) (k : Nat), stdin.length ≤ k →
        read_line_prod stdin k = Except.ok "") ∧
    (i.default = some D →
        i.try_get_with parse (stdinSrc [] (n + 1)) =
          (Outcome.ok D, [Event.read (renderPrompt i)])) ∧
    (i.default = none →
        i.try_get_with parse (stdinSrc [] n) =
          (Outcome.diverged, List.replicate n (Event.read (renderPrompt i)))) := by
  refine ⟨read_line_prod_eof, ?_, ?_⟩
  · intro hD
    show runLoop (renderPrompt i) i parse (stdinSrc [] (n + 1)) = _
    rw [stdinSrc_nil, List.replicate_succ]
    exact runLoop_done _ i parse _ _ D (stepLine_empty_default i parse "" D rfl hD)
  · intro hD
    show runLoop (renderPrompt i) i parse (stdinSrc [] n) = _
    rw [stdinSrc_nil]
    exact runLoop_eof_no_default _ i parse hD n

/-- Closed witness for `c10_eof`: a closed stdin returns the default 7, and
with no default the loop spins silently. -/
theorem c10_eof_witness :
    ((Input.new (T := Nat)).setDefault 7).try_get_with parseNat (stdinSrc [] 1) =
      (Outcome.ok 7, [Event.read none]) ∧
    (Input.new (T := Nat)).try_get_with parseNat (stdinSrc [] 2) =
      (Outcome.diverged, List.replicate 2 (Event.read none)) :=
  ⟨(c10_eof ((Input.new (T := Nat)).setDefault 7) parseNat 7 0).2.1 rfl,
   (c10_eof (Input.new (T := Nat)) parseNat 0 2).2.2 rfl⟩

end Informal
